import Mathlib

/-!
Verification of the runninghub-batch-api task lifecycle engine.

This file shallowly embeds the parts of the repository that the claims
concern: the retry-delay function, the repository-layer mission operations
(`cancel_api_mission`, `retry_api_mission` in repositories/database.py),
and the engine steps of services/api_task_service.py (consumer admission,
submission-failure handling, polling worker iteration, completion
monitor, retry checker).  Rows of the sqlite tables `api_missions` and
`api_mission_items` are modelled as structures; timestamps are abstract
naturals; a database is a pair of row lists.  Each Lean definition is a
direct transcription of the corresponding Python function.
-/

namespace RunningHubBatch

/-- Constant MAX_RETRY_COUNT from services/api_task_service.py. -/
def MAX_RETRY_COUNT : Nat := 7

/-- Constant BASE_RETRY_DELAY (seconds) from services/api_task_service.py. -/
def BASE_RETRY_DELAY : Nat := 60

/-- Constant MAX_RETRY_DELAY (seconds) from services/api_task_service.py. -/
def MAX_RETRY_DELAY : Nat := 3600

/-- Constant MAX_CONCURRENT_API_TASKS from core/config.py. -/
def MAX_CONCURRENT_API_TASKS : Nat := 50

/-- Transcription of `calculate_retry_delay` in services/api_task_service.py:
`delay = BASE_RETRY_DELAY * (2 ** retry_count); return min(delay, MAX_RETRY_DELAY)`. -/
def calculate_retry_delay (retry_count : Nat) : Nat :=
  min (BASE_RETRY_DELAY * 2 ^ retry_count) MAX_RETRY_DELAY

/-- Row of the `api_mission_items` table. -/
structure ItemRow where
  id : Nat
  missionId : Nat
  itemIndex : Nat
  status : String
  retryCount : Nat
  nextRetryAt : Option Nat
  platformId : Option String
  platformTaskId : Option String
  resultUrl : Option String
  errorMessage : Option String
  deriving Repr, DecidableEq

/-- Row of the `api_missions` table (the fields the claims touch). -/
structure MissionRow where
  id : Nat
  status : String
  totalCount : Nat
  completedCount : Nat
  failedCount : Nat
  scheduledTime : Option Nat
  startedAt : Option Nat
  deriving Repr, DecidableEq

/-- The persistent store: the two tables the engine reads and writes. -/
structure Db where
  missions : List MissionRow
  items : List ItemRow
  deriving Repr, DecidableEq

/-- Lookup of a mission row by primary key (`SELECT ... WHERE id = ?`). -/
def findMission (db : Db) (mid : Nat) : Option MissionRow :=
  db.missions.find? (fun m => m.id == mid)

/-- Lookup of an item row by primary key (`SELECT ... WHERE id = ?`). -/
def findItem (db : Db) (iid : Nat) : Option ItemRow :=
  db.items.find? (fun it => it.id == iid)

/-- Single-row item update by primary key (`UPDATE api_mission_items ... WHERE id = ?`). -/
def setItem (db : Db) (iid : Nat) (f : ItemRow → ItemRow) : Db :=
  ⟨db.missions, db.items.map (fun it => if it.id == iid then f it else it)⟩

/-- Single-row mission update by primary key (`UPDATE api_missions ... WHERE id = ?`). -/
def setMission (db : Db) (mid : Nat) (f : MissionRow → MissionRow) : Db :=
  ⟨db.missions.map (fun m => if m.id == mid then f m else m), db.items⟩

/-- Item effect of the second UPDATE in `cancel_api_mission`
(repositories/database.py): every item of the mission whose status is
`pending` or `processing` is set to status `failed` with error message
`任务已取消`; other rows are untouched. -/
def cancelItemUpdate (mid : Nat) (it : ItemRow) : ItemRow :=
  if it.missionId == mid && (it.status == "pending" || it.status == "processing") then
    { it with status := "failed", errorMessage := some "任务已取消" }
  else it

/-- Transcription of `cancel_api_mission` in repositories/database.py:
read the mission; return 0 unless its status is `queued` or `running`;
otherwise set the mission status to `cancelled`, set every `pending` or
`processing` item of the mission to `failed` with error message
`任务已取消` (a second, separate UPDATE statement), and return the count
of the mission's items whose status is `failed` with that message. -/
def cancel_api_mission (db : Db) (mid : Nat) : Nat × Db :=
  match findMission db mid with
  | none => (0, db)
  | some m =>
    if m.status == "queued" || m.status == "running" then
      let db1 := setMission db mid (fun mm => { mm with status := "cancelled" })
      let db2 : Db := ⟨db1.missions, db1.items.map (cancelItemUpdate mid)⟩
      let cnt := (db2.items.filter (fun it =>
        it.missionId == mid && it.status == "failed"
          && it.errorMessage == some "任务已取消")).length
      (cnt, db2)
    else (0, db)

/-- Item effect of the UPDATE in `retry_api_mission`
(repositories/database.py): `SET status = 'pending', error_message = NULL,
platform_task_id = NULL`. -/
def retryItemUpdate (it : ItemRow) : ItemRow :=
  { it with status := "pending", errorMessage := none, platformTaskId := none }

/-- Predicate selecting the rows of `SELECT ... WHERE api_mission_id = ?
AND status = 'failed'` in `retry_api_mission`. -/
def isFailedOf (mid : Nat) (it : ItemRow) : Bool :=
  it.missionId == mid && it.status == "failed"

/-- Transcription of `retry_api_mission` in repositories/database.py:
select the mission's `failed` items; if there are none return 0 with the
store unchanged; otherwise apply `retryItemUpdate` to each of them, set
the mission status to `queued`, and return how many were reset.  The
mission's own status is never read. -/
def retry_api_mission (db : Db) (mid : Nat) : Nat × Db :=
  let failedItems := db.items.filter (isFailedOf mid)
  if failedItems.isEmpty then (0, db)
  else
    let items := db.items.map (fun it => if isFailedOf mid it then retryItemUpdate it else it)
    let missions := db.missions.map (fun mm =>
      if mm.id == mid then { mm with status := "queued" } else mm)
    (failedItems.length, ⟨missions, items⟩)

/-- Count of the mission's items in status `pending` or `processing`, the
query issued by `_monitor_mission_completion` every 2 seconds. -/
def countPendingProcessing (db : Db) (mid : Nat) : Nat :=
  (db.items.filter (fun it =>
    it.missionId == mid && (it.status == "pending" || it.status == "processing"))).length

/-- One iteration of `ApiTaskManager._monitor_mission_completion`
(services/api_task_service.py): when the count of `pending`/`processing`
items of the mission is zero, set the mission status to `completed` and
exit (the Boolean is `true` when the monitor breaks out of its loop);
otherwise sleep and loop again. -/
def monitor_mission_completion_step (db : Db) (mid : Nat) : Db × Bool :=
  if countPendingProcessing db mid = 0 then
    (setMission db mid (fun mm => { mm with status := "completed" }), true)
  else (db, false)

/-- Result of one pass of the drain loop inside `_consumer_loop`
(services/api_task_service.py): the admitted payloads
(`items_to_process`), the not-yet-due payloads held back (`temp_queue`,
in the order they were appended), what is left of the queue when the
concurrency gate closes, and the final `current_concurrent`. -/
structure ConsumerDrain where
  admitted : List ItemRow
  putBack : List ItemRow
  queueRest : List ItemRow
  concurrent : Nat
  deriving Repr, DecidableEq

/-- Transcription of the drain loop in `_consumer_loop`: while the queue
is nonempty and `current_concurrent < max_concurrent`, pop the left end;
if the popped item's `next_retry_at` is set and still in the future, move
it to `temp_queue` and continue; otherwise admit it and increment
`current_concurrent`. -/
def consumer_drain (queue : List ItemRow) (now cur maxC : Nat) : ConsumerDrain :=
  match queue with
  | [] => ⟨[], [], [], cur⟩
  | it :: rest =>
    if cur < maxC then
      match it.nextRetryAt with
      | some t =>
        if now < t then
          let r := consumer_drain rest now cur maxC
          ⟨r.admitted, it :: r.putBack, r.queueRest, r.concurrent⟩
        else
          let r := consumer_drain rest now (cur + 1) maxC
          ⟨it :: r.admitted, r.putBack, r.queueRest, r.concurrent⟩
      | none =>
        let r := consumer_drain rest now (cur + 1) maxC
        ⟨it :: r.admitted, r.putBack, r.queueRest, r.concurrent⟩
    else ⟨[], [], it :: rest, cur⟩

/-- Queue contents after the drain pass: `extendleft(temp_queue)` prepends
the held-back payloads in reverse of their append order. -/
def consumer_queue_after (queue : List ItemRow) (now cur maxC : Nat) : List ItemRow :=
  let r := consumer_drain queue now cur maxC
  r.putBack.reverse ++ r.queueRest

/-- Due-item selection of `_retry_checker_loop` (services/api_task_service.py):
every `pending` item whose `next_retry_at` is non-null and not after now.
The checker appends these payloads to the queue and issues no UPDATE, so
`next_retry_at` is left intact on every enqueued row. -/
def retry_checker_due (db : Db) (now : Nat) : List ItemRow :=
  db.items.filter (fun it =>
    it.status == "pending" &&
      match it.nextRetryAt with
      | some t => decide (t ≤ now)
      | none => false)

/-- One pass of `_retry_checker_loop`: the store is untouched and the due
payloads are appended to the right end of the queue. -/
def retry_checker_step (db : Db) (queue : List ItemRow) (now : Nat) : Db × List ItemRow :=
  (db, queue ++ retry_checker_due db now)

/-- In-memory engine state of `ApiTaskManager`: the inflight counter
`current_concurrent` and the number of live polling workers
(`running_tasks` / `polling_threads` entries), next to the store. -/
structure EngineState where
  currentConcurrent : Nat
  pollingWorkers : Nat
  db : Db
  deriving Repr, DecidableEq

/-- Outcome of the platform submission as observed by
`_submit_and_start_polling`: either the manager reported success with a
task id, or the submission failed (the manager returned success=False or
the call raised). -/
inductive SubmitOutcome
  | success (taskId : String) (platformId : String)
  | failure (msg : String)
  deriving Repr, DecidableEq

/-- Transcription of `_handle_task_submission_failure`
(services/api_task_service.py): re-read the item; if
`retry_count < MAX_RETRY_COUNT`, set status `pending`, increment
`retry_count`, clear `platform_task_id`, record the error message and
`next_retry_at = now + calculate_retry_delay(retry_count)`; otherwise set
status `failed` and clear `next_retry_at`.  `current_concurrent` is not
touched on either branch. -/
def handle_task_submission_failure (db : Db) (itemId now : Nat) (msg : String) : Db :=
  match findItem db itemId with
  | none => db
  | some it =>
    if it.retryCount < MAX_RETRY_COUNT then
      let d := calculate_retry_delay it.retryCount
      setItem db itemId (fun x =>
        { x with status := "pending",
                 retryCount := it.retryCount + 1,
                 platformTaskId := none,
                 errorMessage := some ("提交失败: " ++ msg ++ " (将在 " ++ toString d
                   ++ " 秒后重试 " ++ toString (it.retryCount + 1) ++ "/"
                   ++ toString MAX_RETRY_COUNT ++ ")"),
                 nextRetryAt := some (now + d) })
    else
      setItem db itemId (fun x =>
        { x with status := "failed",
                 errorMessage := some ("提交失败 (已达最大重试次数 "
                   ++ toString MAX_RETRY_COUNT ++ "): " ++ msg),
                 nextRetryAt := none })

/-- Transcription of `_update_mission_status_to_running`: only the
`queued` → `running` edge fires, stamping `started_at`. -/
def update_mission_status_to_running (db : Db) (mid now : Nat) : Db :=
  match findMission db mid with
  | some m =>
    if m.status == "queued" then
      setMission db mid (fun mm => { mm with status := "running", startedAt := some now })
    else db
  | none => db

/-- Transcription of `_submit_and_start_polling`: promote the mission to
`running` if needed, then on submission success mark the item
`processing` and spawn a polling worker; on failure run
`_handle_task_submission_failure` (the raised error is caught internally
and never reaches the consumer loop, so no counter is adjusted there). -/
def submit_and_start_polling (st : EngineState) (mid itemId now : Nat)
    (outcome : SubmitOutcome) : EngineState :=
  let db1 := update_mission_status_to_running st.db mid now
  match outcome with
  | .success _ _ =>
    { st with db := setItem db1 itemId (fun x => { x with status := "processing" }),
              pollingWorkers := st.pollingWorkers + 1 }
  | .failure msg =>
    { st with db := handle_task_submission_failure db1 itemId now msg }

/-- Admission plus submission as `_consumer_loop` performs it for one
popped payload: increment `current_concurrent` under the queue lock, then
call `_submit_and_start_polling`. -/
def consumer_admit_and_submit (st : EngineState) (mid itemId now : Nat)
    (outcome : SubmitOutcome) : EngineState :=
  submit_and_start_polling { st with currentConcurrent := st.currentConcurrent + 1 }
    mid itemId now outcome

/-- Element of the `results` list in an adapter query response: either a
bare string URL or an object whose `url` key may be absent. -/
inductive ResultEntry
  | s (str : String)
  | obj (url : Option String)
  deriving Repr, DecidableEq

/-- Object carrying `fileUrl` / `url` keys, the shape of the `result` and
`data` members of a query response. -/
structure FileRef where
  fileUrl : Option String
  url : Option String
  deriving Repr, DecidableEq

/-- Adapter query response as `_polling_worker` reads it: the `status`
string plus the optional `results` list (empty models absent or falsy),
`result` and `data` objects, and the two error-message keys. -/
structure QueryResult where
  status : String
  results : List ResultEntry
  result : Option FileRef
  data : Option FileRef
  error : Option String
  errorMessage : Option String
  deriving Repr, DecidableEq

/-- Python truthiness of an optional string: `None` and the empty string
are falsy. -/
def pyTruthy (s : Option String) : Bool :=
  match s with
  | some str => !str.isEmpty
  | none => false

/-- Python `a or b` on optional strings. -/
def pyOr (a b : Option String) : Option String :=
  if pyTruthy a then a else b

/-- Transcription of the result-URL extraction in `_polling_worker`
(services/api_task_service.py, SUCCESS branch): if `results` is a
nonempty list take its first element (the string itself, or the object's
`url` key); otherwise if `result` is present take its `fileUrl` or `url`;
otherwise if `data` is present take its `fileUrl` or `url`. -/
def extractResultUrl (r : QueryResult) : Option String :=
  match r.results with
  | e :: _ =>
    match e with
    | .s str => some str
    | .obj u => u
  | [] =>
    match r.result with
    | some ro => pyOr ro.fileUrl ro.url
    | none =>
      match r.data with
      | some d => pyOr d.fileUrl d.url
      | none => none

/-- Modelled from the spec: the extraction order the specification claims
— array of strings, array of objects with `url`, `data.fileUrl`,
`result.fileUrl` — taking the first non-empty URL among them.  Written
for comparison with `extractResultUrl`, which is transcribed from the
source. -/
def claimOrderExtract (r : QueryResult) : Option String :=
  let cands : List (Option String) :=
    (r.results.map (fun e =>
      match e with
      | .s str => some str
      | .obj u => u))
      ++ [r.data.bind FileRef.fileUrl, r.result.bind FileRef.fileUrl]
  (cands.filterMap id).find? (fun s => !s.isEmpty)

/-- Error message chosen by the FAILED branch of `_polling_worker`:
`result.get("error") or result.get("errorMessage") or "未知错误"`. -/
def pollErrorMessage (r : QueryResult) : String :=
  (pyOr r.error (pyOr r.errorMessage (some "未知错误"))).getD "未知错误"

/-- What `_query_task_status` observed while querying the adapter: a
response, a missing adapter, or a raised transport exception. -/
inductive QueryOutcome
  | response (r : QueryResult)
  | adapterMissing (platformId : String)
  | transportError (msg : String)
  deriving Repr, DecidableEq

/-- Transcription of `ApiTaskManager._query_task_status`
(services/api_task_service.py): a normal response is passed through; a
missing adapter yields `{"status": "FAILED", "errorMessage": ...}`; and a
raised exception is caught and converted into
`{"status": "FAILED", "errorMessage": "查询失败: ..."}` — the transport
error is not re-raised to the polling loop. -/
def query_task_status (o : QueryOutcome) : QueryResult :=
  match o with
  | .response r => r
  | .adapterMissing pid =>
    { status := "FAILED", results := [], result := none, data := none,
      error := none, errorMessage := some ("平台 " ++ pid ++ " 适配器不可用") }
  | .transportError msg =>
    { status := "FAILED", results := [], result := none, data := none,
      error := none, errorMessage := some ("查询失败: " ++ msg) }

/-- What the polling loop does after handling one query result: break out
of the loop (`exit`), or sleep 3 s and poll again (`continuePoll`). -/
inductive WorkerAction
  | exit
  | continuePoll
  deriving Repr, DecidableEq

/-- One iteration of the polling loop in `_polling_worker`
(services/api_task_service.py), branching on the reported status:
SUCCESS persists `completed` with the extracted URL (or `failed` with
`任务完成但无结果` when no truthy URL is found) and exits; FAILED re-reads
`retry_count` and either schedules a backoff retry or marks the item
permanently `failed`, then exits; RUNNING/QUEUED/PENDING and unknown
statuses leave the store untouched and keep polling. -/
def polling_step (db : Db) (itemId now : Nat) (r : QueryResult) : Db × WorkerAction :=
  if r.status == "SUCCESS" then
    match extractResultUrl r with
    | some u =>
      if !u.isEmpty then
        (setItem db itemId (fun x => { x with status := "completed", resultUrl := some u }),
         .exit)
      else
        (setItem db itemId (fun x =>
          { x with status := "failed", errorMessage := some "任务完成但无结果" }), .exit)
    | none =>
      (setItem db itemId (fun x =>
        { x with status := "failed", errorMessage := some "任务完成但无结果" }), .exit)
  else if r.status == "FAILED" then
    let err := pollErrorMessage r
    match findItem db itemId with
    | none => (db, .exit)
    | some it =>
      if it.retryCount < MAX_RETRY_COUNT then
        let d := calculate_retry_delay it.retryCount
        (setItem db itemId (fun x =>
          { x with status := "pending",
                   retryCount := it.retryCount + 1,
                   platformTaskId := none,
                   errorMessage := some ("任务失败: " ++ err ++ " (将在 " ++ toString d
                     ++ " 秒后重试 " ++ toString (it.retryCount + 1) ++ "/"
                     ++ toString MAX_RETRY_COUNT ++ ")"),
                   nextRetryAt := some (now + d) }), .exit)
      else
        (setItem db itemId (fun x =>
          { x with status := "failed",
                   errorMessage := some ("任务失败 (已达最大重试次数 "
                     ++ toString MAX_RETRY_COUNT ++ "): " ++ err),
                   nextRetryAt := none }), .exit)
  else (db, .continuePoll)

/-- One full polling-worker iteration: `_query_task_status` followed by
the status dispatch of `_polling_worker`. -/
def polling_worker_iteration (db : Db) (itemId now : Nat) (q : QueryOutcome) :
    Db × WorkerAction :=
  polling_step db itemId now (query_task_status q)

/-- Method names defined in class `PlatformManager`
(services/platform_manager.py); Python resolves an attribute access
`platform_manager.<name>` against this table and raises AttributeError
when the name is absent. -/
def platformManagerMethods : List String :=
  ["get_available_platforms", "get_platform_adapter", "select_platform",
   "submit_task_with_platform"]

/-- Method names `ApiTaskManager` invokes on the global `platform_manager`
instance: `submit_task` in `_submit_task_to_platform` and `get_adapter`
in `_query_task_status` (services/api_task_service.py). -/
def apiTaskServiceManagerCalls : List String :=
  ["submit_task", "get_adapter"]

/-- Projection of the item columns that `retry_api_mission` never writes:
everything except `status`, `error_message`, `platform_task_id`. -/
def itemFrame (it : ItemRow) :
    Nat × Nat × Nat × Nat × Option Nat × Option String × Option String :=
  (it.id, it.missionId, it.itemIndex, it.retryCount, it.nextRetryAt,
   it.platformId, it.resultUrl)

/-- Projection of the item columns the polling worker's FAILED branch
manipulates: status, retry_count, platform_task_id, next_retry_at. -/
def pollFrame (it : ItemRow) : String × Nat × Option String × Option Nat :=
  (it.status, it.retryCount, it.platformTaskId, it.nextRetryAt)

/-- Mission of scenario S6: two items, status queued, nothing submitted. -/
def c1MissionRow : MissionRow := ⟨1, "queued", 2, 0, 0, none, none⟩

/-- First pending item of the S6 mission. -/
def c1Item1 : ItemRow := ⟨1, 1, 1, "pending", 0, none, none, none, none, none⟩

/-- Second pending item of the S6 mission. -/
def c1Item2 : ItemRow := ⟨2, 1, 2, "pending", 0, none, none, none, none, none⟩

/-- Store of scenario S6 before the cancel. -/
def c1Db : Db := ⟨[c1MissionRow], [c1Item1, c1Item2]⟩

/-- Store with one in-flight item (first attempt, retry budget unused),
used to exercise the polling worker on a transport error. -/
def c3Db : Db :=
  ⟨[⟨1, "running", 1, 0, 0, none, some 10⟩],
   [⟨1, 1, 1, "processing", 0, none, some "runninghub", some "task-1", none, none⟩]⟩

/-- Store of a running mission whose every item failed terminally. -/
def c5Db : Db :=
  ⟨[⟨1, "running", 2, 0, 2, none, some 10⟩],
   [⟨1, 1, 1, "failed", 7, none, none, none, none, some "boom"⟩,
    ⟨2, 1, 2, "failed", 7, none, none, none, none, some "boom"⟩]⟩

/-- Queued payload still inside its backoff window (due at 3). -/
def c6Item : ItemRow := ⟨1, 1, 1, "pending", 1, some 3, none, none, none, some "e"⟩

/-- Terminal (cancelled) mission that still owns a failed item — exactly
what `cancel_api_mission` leaves behind. -/
def c8Db : Db :=
  ⟨[⟨1, "cancelled", 1, 0, 1, none, none⟩],
   [⟨1, 1, 1, "failed", 7, none, none, none, none, some "任务已取消"⟩]⟩

/-- Completed mission with no failed items. -/
def c8GoodDb : Db :=
  ⟨[⟨2, "completed", 1, 1, 0, none, some 5⟩],
   [⟨1, 2, 1, "completed", 0, none, some "runninghub", some "t", some "u", none⟩]⟩

/-- SUCCESS response carrying both a `result` object and a `data` object,
each with its own `fileUrl`. -/
def c9Resp : QueryResult :=
  { status := "SUCCESS", results := [],
    result := some ⟨some "R", none⟩, data := some ⟨some "D", none⟩,
    error := none, errorMessage := none }

/-- Store with the single in-flight item the `c9Resp` poll belongs to. -/
def c9Db : Db :=
  ⟨[⟨1, "running", 1, 0, 0, none, some 10⟩],
   [⟨1, 1, 1, "processing", 0, none, some "runninghub", some "task-9", none, none⟩]⟩

/-- C7: the retry-delay function equals min(60·2^retry_count, 3600)
seconds for every retry_count ≥ 0, and for retry_count = 0..6 it yields
exactly 60, 120, 240, 480, 960, 1920, 3600 (the last clipped to
MAX_RETRY_DELAY). -/
theorem retry_delay_formula_and_table :
    (∀ n : Nat, calculate_retry_delay n = min (60 * 2 ^ n) 3600)
    ∧ (List.range 7).map calculate_retry_delay
        = [60, 120, 240, 480, 960, 1920, 3600] := by
  exact ⟨fun n => rfl, by decide⟩

/-- C4: the engine invokes `platform_manager.submit_task` (in
`_submit_task_to_platform`) and `platform_manager.get_adapter` (in
`_query_task_status`), yet class `PlatformManager` defines neither method
— it only defines `submit_task_with_platform` and
`get_platform_adapter` — so both attribute lookups raise AttributeError
at runtime and no submission can ever reach an adapter through this
path. -/
theorem engine_calls_missing_platform_manager_methods :
    ("submit_task" ∈ apiTaskServiceManagerCalls)
    ∧ ("get_adapter" ∈ apiTaskServiceManagerCalls)
    ∧ ("submit_task" ∉ platformManagerMethods)
    ∧ ("get_adapter" ∉ platformManagerMethods) := by
  decide

/-- C2: when the consumer loop admits an item (incrementing
`current_concurrent`) and the platform submission then fails, the engine
does NOT decrement `current_concurrent`: the failure handler only
rewrites the item row, so the counter ends one above its starting value
while the number of polling workers is unchanged — the claimed balance
(decrement by exactly one, counter = active workers) is violated on
every submission failure. -/
theorem submission_failure_leaks_inflight (st : EngineState)
    (mid itemId now : Nat) (msg : String) :
    (consumer_admit_and_submit st mid itemId now (.failure msg)).currentConcurrent
      = st.currentConcurrent + 1
    ∧ (consumer_admit_and_submit st mid itemId now (.failure msg)).pollingWorkers
      = st.pollingWorkers := by
  exact ⟨rfl, rfl⟩

/-- C10: the facade retry operation rewrites only the columns `status`,
`error_message` and `platform_task_id` of the items it resets: every
other item column — id, mission id, item index, `retry_count`,
`next_retry_at`, `platform_id`, `result_url` — is preserved across
`retry_api_mission`, and the reset itself sets status `pending`, clears
the error message and the platform task id while keeping `retry_count`
and `next_retry_at` as they were. -/
theorem retry_reset_touches_only_three_columns :
    ∀ (db : Db) (mid : Nat),
      ((retry_api_mission db mid).2.items.map itemFrame = db.items.map itemFrame)
      ∧ ∀ it : ItemRow,
          (retryItemUpdate it).retryCount = it.retryCount
          ∧ (retryItemUpdate it).nextRetryAt = it.nextRetryAt
          ∧ (retryItemUpdate it).status = "pending"
          ∧ (retryItemUpdate it).errorMessage = none
          ∧ (retryItemUpdate it).platformTaskId = none := by
  intro db mid
  refine ⟨?_, fun it => ⟨rfl, rfl, rfl, rfl, rfl⟩⟩
  unfold retry_api_mission
  by_cases h : (List.filter (isFailedOf mid) db.items).isEmpty = true
  · simp [h]
  · simp only [h, if_false, Bool.false_eq_true, List.map_map]
    apply List.map_congr_left
    intro x _
    by_cases h : isFailedOf mid x
    · simp [Function.comp, h, retryItemUpdate, itemFrame]
    · simp [Function.comp, h]

/-- C1 counterexample: cancelling a queued two-item mission before any
submission leaves both previously-pending items in status `failed` — not
`cancelled` as the claim states. -/
theorem cancel_marks_items_failed_not_cancelled :
    ((cancel_api_mission c1Db 1).2.items.map ItemRow.status = ["failed", "failed"])
    ∧ ("failed" : String) ≠ "cancelled" := by
  decide

/-- C3 counterexample: a transport error while polling a first-attempt
item does terminate the worker (it breaks out of the loop) and does
change the item — status goes `processing` → `pending` and `retry_count`
goes 0 → 1 — contradicting the claim that transport errors never
terminate a worker and never touch retry_count or status. -/
theorem poll_transport_error_consumes_retry_and_exits :
    ((polling_worker_iteration c3Db 1 500 (.transportError "connection reset")).2
      = WorkerAction.exit)
    ∧ ((polling_worker_iteration c3Db 1 500 (.transportError "connection reset")).1.items.map
        (fun x => (x.status, x.retryCount)) = [("pending", 1)])
    ∧ (c3Db.items.map (fun x => (x.status, x.retryCount)) = [("processing", 0)]) := by
  refine ⟨rfl, ?_, rfl⟩
  decide

/-- C5 counterexample: a running mission whose two items both ended in
status `failed` is marked `completed` by the completion monitor —
contradicting the claim that such a mission becomes `failed` and is never
marked `completed`. -/
theorem monitor_marks_all_failed_mission_completed :
    (c5Db.items.map ItemRow.status = ["failed", "failed"])
    ∧ ((monitor_mission_completion_step c5Db 1).1.missions.map MissionRow.status
        = ["completed"])
    ∧ ((monitor_mission_completion_step c5Db 1).1.missions.map MissionRow.status
        ≠ ["failed"]) := by
  decide

/-- C8 counterexample: on a mission already in the terminal status
`cancelled` that still owns a failed item, the facade retry operation is
not a no-op and does not return 0: it returns 1, resets the item and
re-queues the mission. -/
theorem retry_requeues_cancelled_mission :
    ((findMission c8Db 1).map MissionRow.status = some "cancelled")
    ∧ ((retry_api_mission c8Db 1).1 = 1)
    ∧ ((retry_api_mission c8Db 1).2 ≠ c8Db)
    ∧ ((findMission (retry_api_mission c8Db 1).2 1).map MissionRow.status
        = some "queued") := by
  decide

/-- C9 counterexample: on a SUCCESS response that carries both
`result.fileUrl = "R"` and `data.fileUrl = "D"` (and no `results` array),
the code extracts `result.fileUrl` first and yields "R", while the
claimed order (data.fileUrl before result.fileUrl) yields "D" — the
claim's extraction order does not match the code. -/
theorem extraction_checks_result_before_data :
    (extractResultUrl c9Resp = some "R")
    ∧ (claimOrderExtract c9Resp = some "D")
    ∧ (extractResultUrl c9Resp ≠ claimOrderExtract c9Resp) := by
  decide

/-- C8 amended: the facade retry operation never consults the mission's
status; it is a no-op returning 0 exactly when the mission has no items
in status `failed`.  In particular, for a mission with no failed items
(e.g. a completed mission) it returns 0 and leaves every mission row and
every item row unchanged. -/
theorem retry_noop_without_failed_items (db : Db) (mid : Nat)
    (h : (db.items.filter (isFailedOf mid)).isEmpty = true) :
    retry_api_mission db mid = (0, db) := by
  unfold retry_api_mission
  simp [h]

/-- C8 witness: the no-failed-items theorem applied to a concrete
completed mission. -/
theorem retry_noop_without_failed_items_witness :
    retry_api_mission c8GoodDb 2 = (0, c8GoodDb) :=
  retry_noop_without_failed_items c8GoodDb 2 (by decide)

/-- C5 amended: once a mission has no more items in status `pending` or
`processing`, the completion monitor sets the mission's status to
`completed` — regardless of how its items ended, including when every
item failed — and exits its loop; when active items remain it changes
nothing and keeps looping. -/
theorem monitor_sets_completed_when_no_active_items (db : Db) (mid : Nat)
    (h : countPendingProcessing db mid = 0) :
    (∀ mm ∈ (monitor_mission_completion_step db mid).1.missions,
        mm.id = mid → mm.status = "completed")
    ∧ (monitor_mission_completion_step db mid).2 = true
    ∧ (monitor_mission_completion_step db mid).1.items = db.items := by
  refine ⟨?_, ?_, ?_⟩
  · intro mm hmm hid
    unfold monitor_mission_completion_step at hmm
    simp only [h, if_pos] at hmm
    unfold setMission at hmm
    simp only [List.mem_map] at hmm
    obtain ⟨mm0, hmm0, rfl⟩ := hmm
    by_cases h0 : (mm0.id == mid) = true
    · simp [h0]
    · simp only [h0, if_false, Bool.false_eq_true] at hid ⊢
      exact absurd (by simpa using hid) (by simpa using h0)
  · unfold monitor_mission_completion_step
    simp [h]
  · unfold monitor_mission_completion_step
    simp [h, setMission]

/-- C5 witness: the monitor theorem applied to the all-failed mission
store. -/
theorem monitor_sets_completed_when_no_active_items_witness :
    (monitor_mission_completion_step c5Db 1).2 = true :=
  (monitor_sets_completed_when_no_active_items c5Db 1 (by decide)).2.1

/-- C1 amended: for a mission in status `queued` or `running`,
`cancel_api_mission` sets the mission status to `cancelled` and sets
every item of that mission currently in status `pending` or `processing`
to status `failed` with error message `任务已取消` — the items are marked
failed, not cancelled, and the two updates are separate auto-committed
statements rather than one transaction. -/
theorem cancel_active_mission_marks_items_failed (db : Db) (mid : Nat)
    (m : MissionRow) (hm : findMission db mid = some m)
    (hst : m.status = "queued" ∨ m.status = "running") :
    (∀ mm ∈ (cancel_api_mission db mid).2.missions, mm.id = mid → mm.status = "cancelled")
    ∧ (∀ it ∈ db.items, it.missionId = mid →
        (it.status = "pending" ∨ it.status = "processing") →
        { it with status := "failed", errorMessage := some "任务已取消" }
          ∈ (cancel_api_mission db mid).2.items) := by
  have hcond : (m.status == "queued" || m.status == "running") = true := by
    rcases hst with h | h <;> simp [h]
  have hval : cancel_api_mission db mid
      = ((((setMission db mid (fun mm => { mm with status := "cancelled" })).items.map
            (cancelItemUpdate mid)).filter (fun it =>
              it.missionId == mid && it.status == "failed"
                && it.errorMessage == some "任务已取消")).length,
         ⟨(setMission db mid (fun mm => { mm with status := "cancelled" })).missions,
          (setMission db mid (fun mm => { mm with status := "cancelled" })).items.map
            (cancelItemUpdate mid)⟩) := by
    unfold cancel_api_mission
    rw [hm]
    simp [hcond]
  constructor
  · intro mm hmm hid
    rw [hval] at hmm
    simp only [setMission, List.mem_map] at hmm
    obtain ⟨mm0, hmm0, rfl⟩ := hmm
    by_cases h0 : (mm0.id == mid) = true
    · simp [h0]
    · simp only [h0, if_false, Bool.false_eq_true] at hid ⊢
      exact absurd (by simpa using hid) (by simpa using h0)
  · intro it hit hmid hstatus
    rw [hval]
    simp only [setMission, List.mem_map]
    refine ⟨it, hit, ?_⟩
    unfold cancelItemUpdate
    have : (it.missionId == mid
        && (it.status == "pending" || it.status == "processing")) = true := by
      rcases hstatus with h | h <;> simp [hmid, h]
    rw [if_pos this]

/-- C1 witness: cancelling the queued S6 mission places the
failed-with-cancel-message copy of its first pending item in the store. -/
theorem cancel_active_mission_marks_items_failed_witness :
    { c1Item1 with status := "failed", errorMessage := some "任务已取消" }
      ∈ (cancel_api_mission c1Db 1).2.items :=
  (cancel_active_mission_marks_items_failed c1Db 1 c1MissionRow (by decide)
    (Or.inl rfl)).2 c1Item1 (by decide) rfl (Or.inl rfl)

/-- C6: every payload the consumer loop admits whose `next_retry_at` is
set is already due (its timestamp is not after now) — a not-yet-due item
is pushed back instead of admitted — and the Retry Checker enqueues only
rows taken unchanged from the store (in particular with `next_retry_at`
still set), so a pending item with `next_retry_at = t` is never admitted
to submission before t. -/
theorem consumer_admits_only_due_items (queue : List ItemRow)
    (now cur maxC : Nat) (it : ItemRow) (t : Nat)
    (hmem : it ∈ (consumer_drain queue now cur maxC).admitted)
    (ht : it.nextRetryAt = some t) :
    t ≤ now
    ∧ ∀ (db : Db) (n : Nat) (x : ItemRow),
        x ∈ retry_checker_due db n → x ∈ db.items ∧ x.nextRetryAt ≠ none := by
  constructor
  · induction queue generalizing cur with
    | nil =>
      simp [consumer_drain] at hmem
    | cons hd rest ih =>
      unfold consumer_drain at hmem
      by_cases hcur : cur < maxC
      · simp only [hcur, if_pos] at hmem
        cases hhd : hd.nextRetryAt with
        | none =>
          simp only [hhd] at hmem
          simp only [List.mem_cons] at hmem
          rcases hmem with rfl | hmem
          · rw [ht] at hhd; exact absurd hhd (by simp)
          · exact ih _ hmem
        | some t1 =>
          simp only [hhd] at hmem
          by_cases hlt : now < t1
          · simp only [hlt, if_pos] at hmem
            exact ih _ hmem
          · simp only [hlt, if_neg, ite_false] at hmem
            simp only [List.mem_cons] at hmem
            rcases hmem with rfl | hmem
            · rw [ht] at hhd
              cases hhd
              omega
            · exact ih _ hmem
      · simp only [hcur, if_neg, ite_false] at hmem
        simp at hmem
  · intro db n x hx
    unfold retry_checker_due at hx
    have hmem2 := List.mem_of_mem_filter hx
    have hpred := List.of_mem_filter hx
    refine ⟨hmem2, ?_⟩
    intro hnone
    rw [hnone] at hpred
    simp at hpred

/-- C6 witness: the admission theorem applied to a one-payload queue whose
item became due at 3, drained at time 10. -/
theorem consumer_admits_only_due_items_witness :
    (3 : Nat) ≤ 10
    ∧ c6Item ∈ (⟨[], [c6Item]⟩ : Db).items
    ∧ c6Item.nextRetryAt ≠ none := by
  have h := consumer_admits_only_due_items [c6Item] 10 0 50 c6Item 3 (by decide) rfl
  have h2 := h.2 ⟨[], [c6Item]⟩ 10 c6Item (by decide)
  exact ⟨h.1, h2.1, h2.2⟩

/-- C3 amended: an exception raised while querying the adapter does not
propagate — `_query_task_status` converts it into a result with status
FAILED — but that converted result is then handled exactly like a
provider-reported failure: the polling worker exits its loop, and the
item's retry budget is consumed (status `pending` with `retry_count + 1`
and a backoff `next_retry_at` while `retry_count < MAX_RETRY_COUNT`,
status `failed` otherwise).  Transport errors therefore do terminate the
worker and do change the item; only exceptions raised elsewhere in the
loop body take the sleep-10-seconds-and-continue path. -/
theorem poll_transport_error_behaves_like_provider_failure
    (msg : String) (db : Db) (itemId now : Nat) (it : ItemRow)
    (hit : findItem db itemId = some it) :
    ((query_task_status (.transportError msg)).status = "FAILED")
    ∧ ((polling_worker_iteration db itemId now (.transportError msg)).2
        = WorkerAction.exit)
    ∧ (it.retryCount < MAX_RETRY_COUNT →
        (polling_worker_iteration db itemId now (.transportError msg)).1.items.map pollFrame
          = db.items.map (fun x =>
              if x.id == itemId then
                ("pending", it.retryCount + 1, (none : Option String),
                 some (now + calculate_retry_delay it.retryCount))
              else pollFrame x))
    ∧ (MAX_RETRY_COUNT ≤ it.retryCount →
        (polling_worker_iteration db itemId now (.transportError msg)).1.items.map pollFrame
          = db.items.map (fun x =>
              if x.id == itemId then
                ("failed", x.retryCount, x.platformTaskId, (none : Option Nat))
              else pollFrame x)) := by
  have hR : query_task_status (.transportError msg)
      = { status := "FAILED", results := [], result := none, data := none,
          error := none, errorMessage := some ("查询失败: " ++ msg) } := rfl
  refine ⟨rfl, ?_, ?_, ?_⟩
  · unfold polling_worker_iteration
    rw [hR]
    unfold polling_step
    simp only [hit]
    by_cases hrc : it.retryCount < MAX_RETRY_COUNT <;> simp [hrc]
  · intro hrc
    unfold polling_worker_iteration
    rw [hR]
    unfold polling_step
    simp only [hit]
    simp [hrc, List.map_map]
    simp only [setItem, List.map_map]
    apply List.map_congr_left
    intro x _
    by_cases hx : x.id = itemId <;> simp [hx, pollFrame]
  · intro hrc
    have hrc2 : ¬ it.retryCount < MAX_RETRY_COUNT := by omega
    unfold polling_worker_iteration
    rw [hR]
    unfold polling_step
    simp only [hit]
    simp [hrc2, List.map_map]
    simp only [setItem, List.map_map]
    apply List.map_congr_left
    intro x _
    by_cases hx : x.id = itemId <;> simp [hx, pollFrame]

/-- C3 witness: the transport-error theorem applied to a concrete
first-attempt in-flight item at time 500, where the backoff delay is
60 seconds. -/
theorem poll_transport_error_behaves_like_provider_failure_witness :
    (polling_worker_iteration c3Db 1 500 (.transportError "boom")).1.items.map pollFrame
      = [("pending", 1, (none : Option String), some 560)] := by
  have h := (poll_transport_error_behaves_like_provider_failure "boom" c3Db 1 500
    ⟨1, 1, 1, "processing", 0, none, some "runninghub", some "task-1", none, none⟩
    rfl).2.2.1 (by decide)
  rw [h]
  decide

/-- C9 amended: on a SUCCESS poll the worker extracts the result URL
tolerating the response shapes in this order — first element of the
`results` array (string form, or the object's `url` key), then
`result.fileUrl` falling back to `result.url`, then `data.fileUrl`
falling back to `data.url` (so `result` is consulted before `data`) —
and when the extracted URL is non-empty it persists status `completed`
with that URL and exits the polling loop. -/
theorem extraction_order_and_completion (db : Db) (itemId now : Nat)
    (r : QueryResult) (u : String)
    (hs : r.status = "SUCCESS") (hu : extractResultUrl r = some u)
    (hne : u.isEmpty = false) :
    (∀ (st s : String) (rest : List ResultEntry) (ro d : Option FileRef)
        (e em : Option String),
        extractResultUrl ⟨st, .s s :: rest, ro, d, e, em⟩ = some s)
    ∧ (∀ (st : String) (ou : Option String) (rest : List ResultEntry)
        (ro d : Option FileRef) (e em : Option String),
        extractResultUrl ⟨st, .obj ou :: rest, ro, d, e, em⟩ = ou)
    ∧ (∀ (st : String) (ro : FileRef) (d : Option FileRef) (e em : Option String),
        extractResultUrl ⟨st, [], some ro, d, e, em⟩ = pyOr ro.fileUrl ro.url)
    ∧ (∀ (st : String) (d : FileRef) (e em : Option String),
        extractResultUrl ⟨st, [], none, some d, e, em⟩ = pyOr d.fileUrl d.url)
    ∧ (∀ (st : String) (e em : Option String),
        extractResultUrl ⟨st, [], none, none, e, em⟩ = none)
    ∧ (polling_step db itemId now r
        = (setItem db itemId (fun x => { x with status := "completed", resultUrl := some u }),
           WorkerAction.exit)) := by
  refine ⟨fun _ _ _ _ _ _ _ => rfl, fun _ _ _ _ _ _ _ => rfl,
    fun _ _ _ _ _ => rfl, fun _ _ _ _ => rfl, fun _ _ _ => rfl, ?_⟩
  unfold polling_step
  rw [hu]
  simp [hs, hne]

/-- C9 witness: the extraction theorem applied to the concrete SUCCESS
response carrying `result.fileUrl = "R"`, persisting the item completed
with that URL. -/
theorem extraction_order_and_completion_witness :
    ((polling_step c9Db 1 0 c9Resp).2 = WorkerAction.exit)
    ∧ ((polling_step c9Db 1 0 c9Resp).1.items.map
        (fun x => (x.status, x.resultUrl)) = [("completed", some "R")]) := by
  have h := (extraction_order_and_completion c9Db 1 0 c9Resp "R" rfl rfl rfl).2.2.2.2.2
  rw [h]
  exact ⟨rfl, by decide⟩

end RunningHubBatch
